import Mathlib

/-
Verification of `src/generate_graphs.py` from the Parallel-DFS-Algorithm
repository: a linear matplotlib script that renders three figures from a
hand-entered table of profiling measurements.  Numeric literals of the
Python source are embedded as exact rationals; the plotting library is
modelled by an event trace (style selection, file saves, printed lines,
the single interactive show call) and a small filesystem state for the
save/abort semantics.
-/

namespace GenerateGraphs

/-- Thread counts, line 11 of the source: `threads = [2, 4, 8, 16]`. -/
def threads : List ℚ := [2, 4, 8, 16]

/-- Parallel times in seconds, line 12:
`T_P = [0.003119, 0.004229, 0.008202, 0.009997]`. -/
def T_P : List ℚ := [3119/1000000, 4229/1000000, 8202/1000000, 9997/1000000]

/-- Measured speedups, line 13: `speedup = [0.1829, 0.1349, 0.0696, 0.0571]`. -/
def speedup : List ℚ := [1829/10000, 1349/10000, 696/10000, 571/10000]

/-- Measured efficiencies, line 14:
`efficiency = [0.0915, 0.0337, 0.0087, 0.0036]`. -/
def efficiency : List ℚ := [915/10000, 337/10000, 87/10000, 36/10000]

/-- Serial time in seconds, line 15: `T_S = 0.000571`. -/
def T_S : ℚ := 571/1000000

/-- Line 18: `T_P_ms = [t * 1000 for t in T_P]`. -/
def T_P_ms : List ℚ := T_P.map (fun t => t * 1000)

/-- Line 19: `T_S_ms = T_S * 1000`. -/
def T_S_ms : ℚ := T_S * 1000

/-- Line 50: `ideal_speedup = threads` (alias of the thread-count list). -/
def ideal_speedup : List ℚ := threads

/-- Line 71: `efficiency_percent = [e * 100 for e in efficiency]`. -/
def efficiency_percent : List ℚ := efficiency.map (fun e => e * 100)

/-- Line 89: `degradation_factor = [1.0 / s for s in speedup]`. -/
def degradation_factor : List ℚ := speedup.map (fun s => 1 / s)

/-- Python `max` over a nonempty list (every call site in the script passes
the concrete nonempty list `efficiency_percent`). -/
def pyMax : List ℚ → ℚ
  | [] => 0
  | x :: xs => xs.foldl max x

/-- Line 81: `ax3.set_ylim([0, max(efficiency_percent) * 1.2])` — the y-axis
limits of the overview figure's efficiency panel. -/
def ax3_ylim : ℚ × ℚ := (0, pyMax efficiency_percent * (12/10))

/-- Line 150: `axes[2].set_ylim([0, max(efficiency_percent) * 1.3])` — the
y-axis limits of the individual-charts figure's efficiency panel. -/
def axes2_ylim : ℚ × ℚ := (0, pyMax efficiency_percent * (13/10))

/-- Line 51: the ideal-speedup series plotted in the overview speedup panel,
`ax2.plot(threads, ideal_speedup, ...)`. -/
def ax2_ideal_series : List ℚ := ideal_speedup

/-- Line 129: the ideal-speedup series plotted in the individual speedup
panel, `axes[1].plot(threads, ideal_speedup, ...)`. -/
def axes1_ideal_series : List ℚ := ideal_speedup

/-- Lines 165-166: the two grouped bar series of the comparison figure,
`bars1 = ax.bar(x - width/2, speedup, ...)`. -/
def bars1_values : List ℚ := speedup

/-- Line 166: `bars2 = ax.bar(x + width/2, efficiency, ...)` — the raw
efficiency fractions, not the percentage list. -/
def bars2_values : List ℚ := efficiency

/-- A numeric on-chart text label: the value printed and the number of
decimal places of its Python format spec (`.3f` gives 3, `.2f` gives 2,
`.1f` gives 1). -/
structure Label where
  value : ℚ
  decimals : ℕ
deriving DecidableEq, Repr

/-- Lines 42-44: bar labels of the overview time panel — each parallel bar
labelled with its value at 3 decimal places, then the serial bar likewise. -/
def ax1_labels : List Label :=
  T_P_ms.map (fun v => ⟨v, 3⟩) ++ [⟨T_S_ms, 3⟩]

/-- Lines 61-62: speedup labels `{s:.3f}` in the overview speedup panel. -/
def ax2_labels : List Label := speedup.map (fun v => ⟨v, 3⟩)

/-- Lines 84-85: efficiency labels `{e:.2f}%` in the overview panel. -/
def ax3_labels : List Label := efficiency_percent.map (fun v => ⟨v, 2⟩)

/-- Lines 102-103: degradation labels `{d:.1f}x` in the overview panel. -/
def ax4_labels : List Label := degradation_factor.map (fun v => ⟨v, 1⟩)

/-- Lines 126-128: time labels `{val:.3f}` in the individual time panel. -/
def axes0_labels : List Label :=
  T_P_ms.map (fun v => ⟨v, 3⟩) ++ [⟨T_S_ms, 3⟩]

/-- Lines 139-140: speedup labels `{s:.3f}` in the individual speedup panel. -/
def axes1_labels : List Label := speedup.map (fun v => ⟨v, 3⟩)

/-- Lines 151-152: efficiency labels `{e:.2f}%` in the individual panel. -/
def axes2_labels : List Label := efficiency_percent.map (fun v => ⟨v, 2⟩)

/-- Lines 177-183: value labels of the comparison figure — for each bar of
`bars1` then `bars2`, its height formatted `{height:.3f}`. -/
def comparison_bar_labels : List Label :=
  (bars1_values ++ bars2_values).map (fun v => ⟨v, 3⟩)

/-- Every label the script draws, panel by panel. -/
def allLabels : List Label :=
  ax1_labels ++ ax2_labels ++ ax3_labels ++ ax4_labels ++
  axes0_labels ++ axes1_labels ++ axes2_labels ++ comparison_bar_labels

/-- Every data series handed to a plotting primitive (bars, lines, fill). -/
def plottedGeometry : List (List ℚ) :=
  [T_P_ms, [T_S_ms], speedup, ideal_speedup, efficiency_percent,
   degradation_factor, bars1_values, bars2_values]

/- ## Trace model of the run

The script's observable behaviour is a linear sequence of effects: one
style selection, three figure creations, three saves with printed
confirmations, one interactive show, and the final summary prints. -/

/-- An observable event of the run. -/
inductive Ev where
  | style (name : String)
  | save (file : String) (dpi : ℕ) (figw figh : ℚ)
  | print (line : String)
  | showFigs (figs : List ℕ)
  | warn (msg : String)
deriving DecidableEq, Repr

/-- The preferred style name of line 25. -/
def stylePref : String := "seaborn-v0_8-darkgrid"

/-- Line 25: `plt.style.use('seaborn-v0_8-darkgrid' if 'seaborn-v0_8-darkgrid'
in plt.style.available else 'default')`. -/
def chosenStyle (available : List String) : String :=
  if stylePref ∈ available then stylePref else "default"

/-- The three output paths, in save order (lines 106, 155, 186). -/
def saveFiles : List String :=
  ["docs/performance_graphs.png",
   "docs/performance_graphs_individual.png",
   "docs/performance_graphs_comparison.png"]

/-- Figures created by the script, in creation order: `fig` (line 22),
`fig2` (line 111), `fig3` (line 159).  No figure is ever closed, so all
three are still registered when `plt.show()` runs. -/
def openFigures : List ℕ := [1, 2, 3]

/-- Matplotlib semantics of the single `plt.show()` call on line 189: it
displays every figure currently registered with the pyplot state. -/
def displayedFigures : List ℕ := openFigures

/-- The full event trace of one run, given the list of styles the plotting
library reports as available.  Everything except the chosen style name is
a literal of the source. -/
def scriptTrace (available : List String) : List Ev :=
  [Ev.style (chosenStyle available),
   Ev.save "docs/performance_graphs.png" 300 16 12,
   Ev.print "Graphs saved to docs/performance_graphs.png",
   Ev.save "docs/performance_graphs_individual.png" 300 18 5,
   Ev.print "Individual graphs saved to docs/performance_graphs_individual.png",
   Ev.save "docs/performance_graphs_comparison.png" 300 12 8,
   Ev.print "Comparison chart saved to docs/performance_graphs_comparison.png",
   Ev.showFigs displayedFigures,
   Ev.print "\nAll graphs generated successfully!",
   Ev.print "\nGenerated files:",
   Ev.print "  - docs/performance_graphs.png (4-panel overview)",
   Ev.print "  - docs/performance_graphs_individual.png (3 individual charts)",
   Ev.print "  - docs/performance_graphs_comparison.png (speedup vs efficiency)"]

/-- The save events of a trace. -/
def saveEvents (t : List Ev) : List Ev :=
  t.filter (fun e => match e with | Ev.save _ _ _ _ => true | _ => false)

/-- The filenames saved by a trace, in order. -/
def reportedFiles (t : List Ev) : List String :=
  t.filterMap (fun e => match e with | Ev.save f _ _ _ => some f | _ => none)

/-- The style names selected by a trace. -/
def styleEvents (t : List Ev) : List String :=
  t.filterMap (fun e => match e with | Ev.style s => some s | _ => none)

/-- The warning messages of a trace. -/
def warnEvents (t : List Ev) : List String :=
  t.filterMap (fun e => match e with | Ev.warn m => some m | _ => none)

/-- A trace with its style-selection events removed. -/
def dropStyle (t : List Ev) : List Ev :=
  t.filter (fun e => match e with | Ev.style _ => false | _ => true)

/- ## Filesystem model for the save/abort semantics -/

/-- Filesystem state: whether the output directory `docs` exists, and the
files written so far. -/
structure FS where
  dirExists : Bool
  files : List String
deriving DecidableEq, Repr

/-- One `plt.savefig` call: succeeds (writing the file) only when the
output directory exists and no external I/O failure occurs (`ok`);
otherwise it raises, modelled as `none`. -/
def savefig (fs : FS) (ok : Bool) (file : String) : Option FS :=
  if fs.dirExists && ok then some ⟨fs.dirExists, fs.files ++ [file]⟩ else none

/-- Run the saves in source order, aborting at the first failure with the
files written so far; the Bool records whether the run completed. -/
def runSavesAux (ok : ℕ → Bool) : ℕ → FS → List String → FS × Bool
  | _, fs, [] => (fs, true)
  | i, fs, f :: rest =>
    match savefig fs (ok i) f with
    | none => (fs, false)
    | some fs2 => runSavesAux ok (i + 1) fs2 rest

/-- The script's three saves (lines 106, 155, 186) against an initial
filesystem where `docs` may or may not exist and the i-th save may be hit
by an external failure `ok i = false`. -/
def runScriptFS (dirExists : Bool) (ok : ℕ → Bool) : FS × Bool :=
  runSavesAux ok 0 ⟨dirExists, []⟩ saveFiles

/- ## Claims -/

/-- Helper: the maximum of the efficiency-percentage list is 9.15. -/
lemma pyMax_efficiency_percent_eq : pyMax efficiency_percent = 915/100 := by
  simp [pyMax, efficiency_percent, efficiency]
  norm_num [max_def]

/-- C1: unit conversion is exact multiplication — every millisecond value
equals the second-valued input times exactly 1000 (0.003119 s giving
3.119 ms, and the serial baseline likewise), and every efficiency
percentage equals the fraction times exactly 100 (0.0915 giving 9.15%). -/
theorem c1_unit_conversion_exact :
    (∀ i : Fin 4, T_P_ms.getD i 0 = T_P.getD i 0 * 1000) ∧
    T_S_ms = T_S * 1000 ∧
    (∀ i : Fin 4, efficiency_percent.getD i 0 = efficiency.getD i 0 * 100) ∧
    T_P_ms = [3119/1000, 4229/1000, 8202/1000, 9997/1000] ∧
    T_S_ms = 571/1000 ∧
    efficiency_percent = [915/100, 337/100, 87/100, 36/100] := by
  refine ⟨fun i => ?_, ?_, fun i => ?_, ?_, ?_, ?_⟩
  · fin_cases i <;> norm_num [T_P_ms, T_P]
  · norm_num [T_S_ms, T_S]
  · fin_cases i <;> norm_num [efficiency_percent, efficiency]
  · norm_num [T_P_ms, T_P]
  · norm_num [T_S_ms, T_S]
  · norm_num [efficiency_percent, efficiency]

/-- C2: for every thread count the degradation factor of the fourth
overview panel equals 1 / speedup, every hard-coded speedup is strictly
positive, and at 2 threads (speedup 0.1829) the factor is ≈ 5.467. -/
theorem c2_degradation_is_reciprocal :
    (∀ i : Fin 4,
      0 < speedup.getD i 0 ∧
      degradation_factor.getD i 0 = 1 / speedup.getD i 0) ∧
    |degradation_factor.getD 0 0 - 5467/1000| < 1/1000 := by
  constructor
  · intro i
    fin_cases i <;> constructor <;> norm_num [speedup, degradation_factor]
  · norm_num [degradation_factor, speedup]
    rw [abs_lt]
    constructor <;> norm_num

/-- C3: the ideal-linear-speedup reference series plotted in the overview
speedup panel and in the individual speedup panel equals the thread-count
sequence [2, 4, 8, 16] exactly. -/
theorem c3_ideal_speedup_is_threads :
    ax2_ideal_series = [2, 4, 8, 16] ∧
    axes1_ideal_series = [2, 4, 8, 16] ∧
    ideal_speedup = threads :=
  ⟨rfl, rfl, rfl⟩

/-- C4 counterexample: the claim says every efficiency panel sets its
y-axis upper bound to 1.2 times the maximum efficiency percentage, but the
individual-charts efficiency panel (line 150) uses the factor 1.3: its
upper bound is 11.895, not 10.98. -/
theorem c4_counterexample :
    axes2_ylim.2 ≠ pyMax efficiency_percent * (12/10) ∧
    axes2_ylim.2 = 11895/1000 ∧
    pyMax efficiency_percent * (12/10) = 1098/100 := by
  rw [axes2_ylim, pyMax_efficiency_percent_eq]
  norm_num

/-- C4 amended: both efficiency panels have lower bound 0; the overview
panel's upper bound is 1.2 times the maximum efficiency percentage
(10.98), while the individual-charts panel's upper bound is 1.3 times that
maximum (11.895). -/
theorem c4_efficiency_ylim :
    ax3_ylim = (0, pyMax efficiency_percent * (12/10)) ∧
    axes2_ylim = (0, pyMax efficiency_percent * (13/10)) ∧
    ax3_ylim = (0, 1098/100) ∧
    axes2_ylim = (0, 11895/1000) ∧
    pyMax efficiency_percent = 915/100 := by
  rw [ax3_ylim, axes2_ylim, pyMax_efficiency_percent_eq]
  norm_num

/-- C5 counterexample: the claim says precisely the first and third figures
are displayed; but the single `plt.show()` on line 189 runs with all three
figures still open, so the second figure is displayed too. -/
theorem c5_counterexample :
    2 ∈ displayedFigures ∧ displayedFigures ≠ [1, 3] := by
  decide

/-- C5 amended: the single show call occurs once, after all three saves,
and displays all three figures — including the individual-charts figure. -/
theorem c5_all_figures_displayed :
    displayedFigures = [1, 2, 3] ∧
    (∀ avail : List String,
      (scriptTrace avail).filter
        (fun e => match e with | Ev.showFigs _ => true | _ => false) =
      [Ev.showFigs [1, 2, 3]] ∧
      (scriptTrace avail).getD 7 (Ev.warn "") = Ev.showFigs [1, 2, 3] ∧
      saveEvents ((scriptTrace avail).take 7) = saveEvents (scriptTrace avail)) := by
  refine ⟨by decide, fun avail => ⟨rfl, rfl, rfl⟩⟩

/-- C6: the renderer is deterministic — whatever styles the library
reports available, every run saves the same three files in the same
order at the same resolution and figure sizes, reports the same
filenames, plots the same geometry, and formats each label with its
fixed number of decimal places. -/
theorem c6_deterministic :
    (∀ avail avail2 : List String,
      saveEvents (scriptTrace avail) = saveEvents (scriptTrace avail2) ∧
      reportedFiles (scriptTrace avail) = saveFiles) ∧
    plottedGeometry =
      [[3119/1000, 4229/1000, 8202/1000, 9997/1000], [571/1000],
       [1829/10000, 1349/10000, 696/10000, 571/10000], [2, 4, 8, 16],
       [915/100, 337/100, 87/100, 36/100],
       [10000/1829, 10000/1349, 10000/696, 10000/571],
       [1829/10000, 1349/10000, 696/10000, 571/10000],
       [915/10000, 337/10000, 87/10000, 36/10000]] ∧
    allLabels.map Label.decimals =
      [3, 3, 3, 3, 3, 3, 3, 3, 3, 2, 2, 2, 2, 1, 1, 1, 1,
       3, 3, 3, 3, 3, 3, 3, 3, 3, 2, 2, 2, 2, 3, 3, 3, 3, 3, 3, 3, 3] := by
  refine ⟨fun avail avail2 => ⟨rfl, rfl⟩, ?_, rfl⟩
  norm_num [plottedGeometry, T_P_ms, T_P, T_S_ms, T_S, speedup, ideal_speedup,
    threads, efficiency_percent, efficiency, degradation_factor,
    bars1_values, bars2_values]

/-- C7: the three saves occur in the fixed order overview, individual,
comparison; if the output directory `docs` is absent the run fails with no
file written at all, and if a later save fails the earlier successfully
saved files stay on disk (here: saves 1 and 2 succeed, save 3 fails,
leaving exactly the first two files). -/
theorem c7_save_failure_semantics (ok : ℕ → Bool)
    (h0 : ok 0 = true) (h1 : ok 1 = true) (h2 : ok 2 = false) :
    ((runScriptFS false ok).1.files = [] ∧ (runScriptFS false ok).2 = false) ∧
    (runScriptFS true ok).1.files =
      ["docs/performance_graphs.png", "docs/performance_graphs_individual.png"] ∧
    (runScriptFS true ok).2 = false := by
  simp [runScriptFS, runSavesAux, savefig, saveFiles, h0, h1, h2]

/-- C7 witness: instantiating the failure oracle so the first two saves
succeed and the third fails. -/
theorem c7_save_failure_semantics_witness :
    ((runScriptFS false (fun i => decide (i < 2))).1.files = [] ∧
      (runScriptFS false (fun i => decide (i < 2))).2 = false) ∧
    (runScriptFS true (fun i => decide (i < 2))).1.files =
      ["docs/performance_graphs.png", "docs/performance_graphs_individual.png"] ∧
    (runScriptFS true (fun i => decide (i < 2))).2 = false :=
  c7_save_failure_semantics (fun i => decide (i < 2)) (by decide) (by decide) (by decide)

/-- C8: style selection is the only conditional — when the preferred style
is among the available styles it is chosen, otherwise the default style is
substituted; in either case the rest of the run is identical (rendering
completes with the same saves, prints and show) and no warning is ever
emitted. -/
theorem c8_style_fallback :
    ∀ avail : List String,
      styleEvents (scriptTrace avail) =
        [if stylePref ∈ avail then stylePref else "default"] ∧
      warnEvents (scriptTrace avail) = [] ∧
      (∀ avail2 : List String,
        dropStyle (scriptTrace avail) = dropStyle (scriptTrace avail2)) ∧
      reportedFiles (scriptTrace avail) = saveFiles := by
  intro avail
  exact ⟨rfl, rfl, fun avail2 => rfl, rfl⟩

/-- C9: the dataset is immutable — the five base constants are exactly
their defining literals at every point of the (effect-free, single-pass)
run, and each derived sequence is a fresh list built by mapping over a
base list, none of which it aliases (each differs from its base). -/
theorem c9_dataset_immutable :
    threads = [2, 4, 8, 16] ∧
    T_P = [3119/1000000, 4229/1000000, 8202/1000000, 9997/1000000] ∧
    speedup = [1829/10000, 1349/10000, 696/10000, 571/10000] ∧
    efficiency = [915/10000, 337/10000, 87/10000, 36/10000] ∧
    T_S = 571/1000000 ∧
    T_P_ms = T_P.map (fun t => t * 1000) ∧
    efficiency_percent = efficiency.map (fun e => e * 100) ∧
    degradation_factor = speedup.map (fun s => 1 / s) ∧
    T_P_ms ≠ T_P ∧ efficiency_percent ≠ efficiency ∧
    degradation_factor ≠ speedup := by
  refine ⟨rfl, rfl, rfl, rfl, rfl, rfl, rfl, rfl, ?_, ?_, ?_⟩ <;>
    norm_num [T_P_ms, T_P, efficiency_percent, efficiency,
      degradation_factor, speedup]

/-- C10: the comparison figure's second bar series plots the raw
efficiency fractions (0.0915, 0.0337, 0.0087, 0.0036) — not the
percentage list used by the other two figures — and every bar of both
grouped series gets a value label formatted to three decimal places. -/
theorem c10_comparison_bars :
    bars2_values = efficiency ∧
    bars2_values = [915/10000, 337/10000, 87/10000, 36/10000] ∧
    bars2_values ≠ efficiency_percent ∧
    bars1_values = speedup ∧
    comparison_bar_labels.map Label.value = bars1_values ++ bars2_values ∧
    comparison_bar_labels.map Label.decimals = [3, 3, 3, 3, 3, 3, 3, 3] := by
  refine ⟨rfl, rfl, ?_, rfl, rfl, rfl⟩
  norm_num [bars2_values, efficiency_percent, efficiency]

end GenerateGraphs
